import Mathlib

/-!
Verification of the zonal-statistics engine of the Geoprocessing-Examples
repository (`zonal-statistics.py`, with the exploratory variant
`zonal_statistics.py` embedded where a claim refers to it).

The embedding is shallow: the raster and vector data sources, the affine
transform, the rtree block index, the rasterizer and the masked-array
reductions are modelled as executable Lean functions over exact rational
coordinates.  Geometries are modelled as axis-aligned rectangles (the
shape class exercised by the specification's scenarios); the external
providers (shapely predicates, GDAL center-point rasterization, rtree
bounding-box queries) receive their documented semantics on this class.
Pixel values are exact rationals; `numpy` float results that are
irrational (the standard deviation's square root) are represented
symbolically by the `Scalar.sqrtv` constructor.
-/

namespace ZonalStats

/-- Six-parameter 2D affine transform, as in the python `affine` package:
`affine * (x, y) = (a*x + b*y + c, d*x + e*y + f)`. -/
structure Affine where
  a : ℚ
  b : ℚ
  c : ℚ
  d : ℚ
  e : ℚ
  f : ℚ
deriving DecidableEq

/-- Application of an affine transform to a coordinate pair, modelling
`affine_instance * (x, y)`. -/
def Affine.apply (t : Affine) (x y : ℚ) : ℚ × ℚ :=
  (t.a * x + t.b * y + t.c, t.d * x + t.e * y + t.f)

/-- Interleaved bounding box `(min_x, min_y, max_x, max_y)` as used by
`rtree.index.Index(interleaved=True)` and by shapely's `.bounds`. -/
structure BBox where
  x0 : ℚ
  y0 : ℚ
  x1 : ℚ
  y1 : ℚ
deriving DecidableEq

/-- Closed axis-aligned-box intersection test: the semantics of an rtree
`intersection` query between an inserted box and a query box. -/
def BBox.intersectsB (p q : BBox) : Bool :=
  decide (p.x0 ≤ q.x1) && decide (q.x0 ≤ p.x1) &&
  decide (p.y0 ≤ q.y1) && decide (q.y0 ≤ p.y1)

/-- Geometry, modelled as an axis-aligned rectangle with rational corners
(the geometry class the specification's concrete scenarios use).  A shapely
(multi)polygon of this shape is determined by its corner coordinates. -/
structure Geom where
  min_x : ℚ
  min_y : ℚ
  max_x : ℚ
  max_y : ℚ
deriving DecidableEq

/-- Shapely `geometry.bounds`: the `(minx, miny, maxx, maxy)` tuple. -/
def Geom.bounds (g : Geom) : BBox := ⟨g.min_x, g.min_y, g.max_x, g.max_y⟩

/-- Shapely `a.intersects(b)` for two rectangles: closed overlap test. -/
def Geom.intersectsB (g h : Geom) : Bool :=
  decide (g.min_x ≤ h.max_x) && decide (h.min_x ≤ g.max_x) &&
  decide (g.min_y ≤ h.max_y) && decide (h.min_y ≤ g.max_y)

/-- Shapely `a.contains(b)` for rectangles with nonempty interior:
`b` lies inside `a`. -/
def Geom.containsB (g h : Geom) : Bool :=
  decide (g.min_x ≤ h.min_x) && decide (h.max_x ≤ g.max_x) &&
  decide (g.min_y ≤ h.min_y) && decide (h.max_y ≤ g.max_y)

/-- Test whether a point lies in a rectangle geometry (closed), the
center-containment primitive of GDAL rasterization. -/
def Geom.containsPt (g : Geom) (x y : ℚ) : Bool :=
  decide (g.min_x ≤ x) && decide (x ≤ g.max_x) &&
  decide (g.min_y ≤ y) && decide (y ≤ g.max_y)

/-- Scalar result of a metric function.  Rational results are exact;
`sqrtv v` stands for the (possibly irrational) square root of `v`
produced by `numpy`'s float `std`; `maskedConst` is the `numpy.ma.masked`
constant returned by reductions over fully masked arrays. -/
inductive Scalar where
  | rat (v : ℚ)
  | sqrtv (v : ℚ)
  | maskedConst
deriving DecidableEq

/-- A 2D masked array: a shape, per-cell rational data and a per-cell
boolean mask (`true` = masked / excluded). -/
structure Masked where
  rows : Nat
  cols : Nat
  data : Nat → Nat → ℚ
  mask : Nat → Nat → Bool

/-- The unmasked values of a masked array in row-major order
(`numpy.ma` `compressed()`). -/
def Masked.unmaskedValues (m : Masked) : List ℚ :=
  (List.range m.rows).flatMap (fun i =>
    (List.range m.cols).filterMap (fun j =>
      if m.mask i j then none else some (m.data i j)))

/-- Builtin metric `lambda x: x.min()`. -/
def ma_min (m : Masked) : Scalar :=
  match m.unmaskedValues with
  | [] => .maskedConst
  | v :: vs => .rat (vs.foldl min v)

/-- Builtin metric `lambda x: x.max()`. -/
def ma_max (m : Masked) : Scalar :=
  match m.unmaskedValues with
  | [] => .maskedConst
  | v :: vs => .rat (vs.foldl max v)

/-- Builtin metric `lambda x: x.sum()`. -/
def ma_sum (m : Masked) : Scalar :=
  match m.unmaskedValues with
  | [] => .maskedConst
  | v :: vs => .rat (vs.foldl (· + ·) v)

/-- Sum of a list of rationals, helper for mean and std. -/
def rat_total : List ℚ → ℚ
  | [] => 0
  | v :: vs => v + rat_total vs

/-- Builtin metric `lambda x: x.mean()`. -/
def ma_mean (m : Masked) : Scalar :=
  match m.unmaskedValues with
  | [] => .maskedConst
  | v :: vs => .rat (rat_total (v :: vs) / (vs.length + 1 : ℚ))

/-- Builtin metric `lambda x: x.std()`: the square root of the population
variance of the unmasked values, represented symbolically. -/
def ma_std (m : Masked) : Scalar :=
  match m.unmaskedValues with
  | [] => .maskedConst
  | v :: vs =>
    let n : ℚ := vs.length + 1
    let mu := rat_total (v :: vs) / n
    .sqrtv (rat_total ((v :: vs).map (fun x => (x - mu) * (x - mu))) / n)

/-- A value of the metrics mapping: python `None`, a callable, or some
other (non-callable, non-`None`) object. -/
inductive MetricVal where
  | pynone
  | func (g : Masked → Scalar)
  | notCallable

/-- The builtin metrics mapping of `zonal_stats_from_raster`
(`zonal-statistics.py`, lines 129-135), in dict insertion order. -/
def builtin_metrics : List (String × MetricVal) :=
  [("min", .func ma_min), ("max", .func ma_max), ("mean", .func ma_mean),
   ("std", .func ma_std), ("sum", .func ma_sum)]

/-- Python dict assignment `d[k] = v` on an insertion-ordered
association list: replace in place if the key exists, else append. -/
def dict_set {α : Type} (d : List (String × α)) (k : String) (v : α) :
    List (String × α) :=
  if d.any (fun p => p.1 = k) then
    d.map (fun p => if p.1 = k then (p.1, v) else p)
  else
    d ++ [(k, v)]

/-- Python `d.update(**u)`: successive dict assignments of `u`'s items. -/
def dict_update {α : Type} (d u : List (String × α)) : List (String × α) :=
  u.foldl (fun acc p => dict_set acc p.1 p.2) d

/-- The validation loop of `zonal-statistics.py` lines 140-143: walk the
metrics mapping in order and raise `ValueError` at the first value that is
neither `None` nor callable; on success return the mapping with values as
`Option` callables. -/
def validate_metrics :
    List (String × MetricVal) →
    Except String (List (String × Option (Masked → Scalar)))
  | [] => .ok []
  | (name, v) :: rest =>
    match v with
    | .pynone => (validate_metrics rest).map (fun l => (name, none) :: l)
    | .func g => (validate_metrics rest).map (fun l => (name, some g) :: l)
    | .notCallable =>
      .error ("ValueError: Custom function " ++ name ++ " is not callable")

/-- The inner metrics loop of `zonal-statistics.py` lines 237-239: every
non-`None` metric is applied to the masked subset and recorded under its
name; `None` entries produce no key. -/
def apply_metrics (validated : List (String × Option (Masked → Scalar)))
    (m : Masked) : List (String × Scalar) :=
  validated.filterMap (fun p =>
    match p.2 with
    | none => none
    | some g => some (p.1, g m))

/-- A raster block window as yielded by rasterio `block_windows`:
`((row_start, row_stop), (col_start, col_stop))` in pixel coordinates. -/
def Block := (Nat × Nat) × (Nat × Nat)
deriving DecidableEq

/-- The raster data source model (`rasterio` reader): band count, global
affine transform, world bounds, the native block windows of the window
band, plus per-band pixel values and nodata flags addressed by
`(band, global_row, global_col)`.  Bands are 1-indexed as in rasterio. -/
structure Raster where
  count : Nat
  affine : Affine
  bounds : BBox
  blocks : List Block
  readPix : Nat → Nat → Nat → ℚ
  nodataAt : Nat → Nat → Nat → Bool

/-- The raster bbox geometry of `zonal-statistics.py` lines 158-161,
built from the four corners of `raster.bounds`. -/
def raster_bounds_geom (raster : Raster) : Geom :=
  ⟨raster.bounds.x0, raster.bounds.y0, raster.bounds.x1, raster.bounds.y1⟩

/-- World bbox inserted into the rtree spatial index for one block
(`zonal-statistics.py` lines 166-172): both pixel corners are pushed
through the global affine and the result is interleaved as
`(col_min, row_max, col_max, row_min)`. -/
def block_bbox (t : Affine) (block : Block) : BBox :=
  let (_row, _col) := block
  let (row_min, row_max) := _row
  let (col_min, col_max) := _col
  let (col_min2, row_min2) := t.apply (col_min : ℚ) (row_min : ℚ)
  let (col_max2, row_max2) := t.apply (col_max : ℚ) (row_max : ℚ)
  ⟨col_min2, row_max2, col_max2, row_min2⟩

/-- The rtree query `window_index.intersection(zone_geometry.bounds)`
followed by the `window_ids` lookup of `zonal-statistics.py` line 200-201:
all blocks whose inserted world bbox intersects the query bbox, in
insertion order. -/
def intersecting_block_windows (raster : Raster) (q : BBox) : List Block :=
  raster.blocks.filter (fun blk =>
    BBox.intersectsB (block_bbox raster.affine blk) q)

/-- The union-window computation of `zonal-statistics.py` lines 200-206.
The source's local names are kept: because rasterio blocks are
`((row range), (col range))`, the variables named `col` there hold row
values and vice versa, and the resulting window is again
`((row range), (col range))`.  `numpy` raises `IndexError` when the
window list is empty (slicing a shape-`(0,)` array with two indices),
modelled by `none`. -/
def np_window_union (ws : List Block) : Option Block :=
  match ws with
  | [] => none
  | w0 :: rest =>
    let first := (w0 :: rest).flatMap (fun b => [b.1.1, b.1.2])
    let second := (w0 :: rest).flatMap (fun b => [b.2.1, b.2.2])
    let min_col := first.foldl Nat.min w0.1.1
    let max_col := first.foldl Nat.max w0.1.1
    let min_row := second.foldl Nat.min w0.2.1
    let max_row := second.foldl Nat.max w0.2.1
    some ((min_col, max_col), (min_row, max_row))

/-- One band of `raster.read(bands, window=subset_window)`: a window-local
buffer whose cell `(i, j)` is global pixel
`(row_start + i, col_start + j)`, with the band's nodata mask. -/
def read_band (raster : Raster) (bidx : Nat) (w : Block) : Masked :=
  let ((r0, r1), (c0, c1)) := w
  { rows := r1 - r0
    cols := c1 - c0
    data := fun i j => raster.readPix bidx (r0 + i) (c0 + j)
    mask := fun i j => raster.nodataAt bidx (r0 + i) (c0 + j) }

/-- The multi-band read `raster.read(bands, window=subset_window)` of
`zonal-statistics.py` line 212, one buffer per requested band in the
requested order. -/
def raster_read (raster : Raster) (bands : List Nat) (w : Block) :
    List Masked :=
  bands.map (fun b => read_band raster b w)

/-- The subset affine of `zonal-statistics.py` lines 215-218: the global
affine re-anchored so its translation is the world position of the
resolved window's upper-left pixel.  The source computes
`raster.affine * (min_row, min_col)`; under the source's swapped local
naming this is `affine * (col_start, row_start)`, the correct
`(x, y)` order. -/
def subset_affine_of (t : Affine) (w : Block) : Affine :=
  let (_subset_ul_x, _subset_ul_y) := t.apply (w.2.1 : ℚ) (w.1.1 : ℚ)
  ⟨t.a, t.b, _subset_ul_x, t.d, t.e, _subset_ul_y⟩

/-- Model of `rasterio.features.rasterize([geometry], out_shape, transform,
all_touched)` on rectangle geometries: with `all_touched` unset or false a
pixel is burned when its center maps into the geometry; with
`all_touched=True` a pixel is burned when its cell overlaps the geometry. -/
def rasterize (geom : Geom) (rows cols : Nat) (transform : Affine)
    (all_touched : Option Bool) : Nat → Nat → Bool :=
  fun i j =>
    if all_touched = some true then
      let (xa, ya) := transform.apply (j : ℚ) (i : ℚ)
      let (xb, yb) := transform.apply ((j : ℚ) + 1) ((i : ℚ) + 1)
      Geom.intersectsB ⟨min xa xb, min ya yb, max xa xb, max ya yb⟩ geom
    else
      let (cx, cy) := transform.apply ((j : ℚ) + 1/2) ((i : ℚ) + 1/2)
      geom.containsPt cx cy

/-- The mask composition of `zonal-statistics.py` lines 234-235:
`np.ma.masked_array(band.data, mask=band.mask + ~rasterized)` — a cell is
masked when it is nodata or not covered by the rasterized geometry. -/
def masked_subset_of (band : Masked) (rasterized : Nat → Nat → Bool) :
    Masked :=
  { band with mask := fun i j => band.mask i j || !(rasterized i j) }

/-- A vector feature: stable id and geometry. -/
structure Feature where
  id : String
  geometry : Geom

/-- The vector data source model (fiona collection): `crsTransform`
models `fiona.transform.transform_geom(vector_crs, raster_crs, ·,
antimeridian_cutting=True)`, the reprojection of a feature geometry into
the raster's CRS. -/
structure VectorDS where
  crsTransform : Geom → Geom
  features : List Feature

/-- The `bands` argument of `zonal_stats_from_raster`: python `None`, a
single int, or a list. -/
inductive BandsArg where
  | noneArg
  | intArg (b : Nat)
  | listArg (l : List Nat)

/-- Insertion of a value into an ascending list, helper for `py_sorted`. -/
def sorted_insert (x : Nat) : List Nat → List Nat
  | [] => [x]
  | y :: ys => if x ≤ y then x :: y :: ys else y :: sorted_insert x ys

/-- Python `sorted` on a list of ints: stable ascending sort. -/
def py_sorted : List Nat → List Nat
  | [] => []
  | x :: xs => sorted_insert x (py_sorted xs)

/-- The bands normalization of `zonal-statistics.py` lines 146-151:
`None` becomes `range(1, count + 1)`, an int becomes a singleton, and a
list is sorted ascending. -/
def normalize_bands (bands : BandsArg) (count : Nat) : List Nat :=
  match bands with
  | .noneArg => List.range' 1 count
  | .intArg b => [b]
  | .listArg l => py_sorted l

/-- Per-feature statistics record (`FeatureStats` of the specification):
the `outside` key is always present; `contained` and `bands` model the
optional dict keys. -/
structure FeatureStats where
  outside : Bool
  contained : Option Bool
  bands : Option (List (Nat × List (String × Scalar)))
deriving DecidableEq

/-- The per-feature body of the feature loop of `zonal-statistics.py`
lines 175-241, paired with the number of raster read calls it performs.
The outside short-circuit stores `{outside: true}`; otherwise the
contained test, window resolution, one windowed read, rasterization and
the per-band metrics loop run in source order.  `IndexError`s raised by
`numpy` indexing (empty window list at line 202, empty band list at line
222) are `Except.error`. -/
def process_feature (validated : List (String × Option (Masked → Scalar)))
    (bandsL : List Nat) (contained : Bool) (all_touched : Option Bool)
    (raster : Raster) (raster_bounds : Geom) (transform_geom : Geom → Geom)
    (feature : Feature) : Except String FeatureStats × Nat :=
  let zone_geometry := transform_geom feature.geometry
  if !(Geom.intersectsB zone_geometry raster_bounds) then
    (.ok { outside := true, contained := none, bands := none }, 0)
  else
    let contained_val :=
      if contained then some (Geom.containsB raster_bounds zone_geometry)
      else none
    let intersecting_windows :=
      intersecting_block_windows raster zone_geometry.bounds
    match np_window_union intersecting_windows with
    | none => (.error "IndexError: too many indices for array", 0)
    | some subset_window =>
      let raster_subset := raster_read raster bandsL subset_window
      match raster_subset with
      | [] => (.error "IndexError: index 0 is out of bounds", 1)
      | g0 :: _ =>
        let subset_affine := subset_affine_of raster.affine subset_window
        let rasterized :=
          rasterize zone_geometry g0.rows g0.cols subset_affine all_touched
        let bands_result := bandsL.map (fun bidx =>
          (bidx, apply_metrics validated
            (masked_subset_of (read_band raster bidx subset_window)
              rasterized)))
        (.ok { outside := false, contained := contained_val,
               bands := some bands_result }, 1)

/-- The feature loop: fold `process_feature` over the features, storing
each record under `stats[feature.id]` and accumulating read calls; the
first raised error aborts the run. -/
def run_features (validated : List (String × Option (Masked → Scalar)))
    (bandsL : List Nat) (contained : Bool) (all_touched : Option Bool)
    (raster : Raster) (raster_bounds : Geom) (transform_geom : Geom → Geom) :
    List Feature → List (String × FeatureStats) → Nat →
    Except String (List (String × FeatureStats)) × Nat
  | [], acc, reads => (.ok acc, reads)
  | f :: rest, acc, reads =>
    match process_feature validated bandsL contained all_touched raster
        raster_bounds transform_geom f with
    | (.error e, n) => (.error e, reads + n)
    | (.ok entry, n) =>
      run_features validated bandsL contained all_touched raster
        raster_bounds transform_geom rest (dict_set acc f.id entry)
        (reads + n)

/-- The metrics mapping after merging the user's `custom` dict into the
builtins (`zonal-statistics.py` lines 129-138). -/
def merged_metrics (custom : Option (List (String × MetricVal))) :
    List (String × MetricVal) :=
  match custom with
  | none => builtin_metrics
  | some c => dict_update builtin_metrics c

/-- The full `zonal_stats_from_raster` pipeline of `zonal-statistics.py`
lines 129-243 in source order — metrics assembly and validation, bands
normalization, raster bounds geometry, block index, feature loop — paired
with the total number of raster read calls performed before the run
finished or aborted. -/
def zonal_stats_run (vector : VectorDS) (raster : Raster)
    (bands : BandsArg) (contained : Bool) (all_touched : Option Bool)
    (custom : Option (List (String × MetricVal))) :
    Except String (List (String × FeatureStats)) × Nat :=
  match validate_metrics (merged_metrics custom) with
  | .error e => (.error e, 0)
  | .ok validated =>
    let bandsL := normalize_bands bands raster.count
    let raster_bounds := raster_bounds_geom raster
    run_features validated bandsL contained all_touched raster
      raster_bounds vector.crsTransform vector.features [] 0

/-- The value returned by `zonal_stats_from_raster` (or the exception it
raises). -/
def zonal_stats_from_raster (vector : VectorDS) (raster : Raster)
    (bands : BandsArg) (contained : Bool) (all_touched : Option Bool)
    (custom : Option (List (String × MetricVal))) :
    Except String (List (String × FeatureStats)) :=
  (zonal_stats_run vector raster bands contained all_touched custom).1

/-- The number of raster read calls a `zonal_stats_from_raster` run
performs. -/
def zonal_stats_total_reads (vector : VectorDS) (raster : Raster)
    (bands : BandsArg) (contained : Bool) (all_touched : Option Bool)
    (custom : Option (List (String × MetricVal))) : Nat :=
  (zonal_stats_run vector raster bands contained all_touched custom).2

/-- Fiona schema geometry types, as the strings stored in
`vector.schema['geometry']`. -/
inductive GeomType where
  | point
  | multiPoint
  | lineString
  | multiLineString
  | polygon
  | multiPolygon
deriving DecidableEq

/-- Python `'Point' in vector.schema['geometry']`: substring test of the
schema geometry type string. -/
def py_in_point : GeomType → Bool
  | .point => true
  | .multiPoint => true
  | _ => false

/-- Python `'Line' in vector.schema['geometry']`: substring test of the
schema geometry type string. -/
def py_in_line : GeomType → Bool
  | .lineString => true
  | .multiLineString => true
  | _ => false

/-- The `all_touched` defaulting of `zonal_statistics.py` lines 130-131,
with python's operator precedence kept exactly:
`if all_touched is None and 'Point' in g or 'Line' in g: all_touched = True`
parses as `(all_touched is None and 'Point' in g) or ('Line' in g)`. -/
def all_touched_with_default (all_touched : Option Bool) (g : GeomType) :
    Option Bool :=
  if (decide (all_touched = none) && py_in_point g) || py_in_line g then
    some true
  else all_touched

/-- Lookup of one feature's record in a result mapping. -/
def lookup_stats (res : Except String (List (String × FeatureStats)))
    (fid : String) : Option FeatureStats :=
  match res with
  | .error _ => none
  | .ok l => (l.find? (fun p => p.1 = fid)).map (fun p => p.2)

/-- Lookup of one band's metric record for one feature. -/
def band_metrics (res : Except String (List (String × FeatureStats)))
    (fid : String) (bidx : Nat) : Option (List (String × Scalar)) :=
  (lookup_stats res fid).bind (fun st =>
    st.bands.bind (fun bs =>
      (bs.find? (fun p => p.1 = bidx)).map (fun p => p.2)))

/-- Lookup of one metric value for one feature and band. -/
def metric_value (res : Except String (List (String × FeatureStats)))
    (fid : String) (bidx : Nat) (name : String) : Option Scalar :=
  (band_metrics res fid bidx).bind (fun ms =>
    (ms.find? (fun p => p.1 = name)).map (fun p => p.2))

/-- The band keys of one feature's `bands` dict, in storage order. -/
def band_keys (res : Except String (List (String × FeatureStats)))
    (fid : String) : Option (List Nat) :=
  (lookup_stats res fid).bind (fun st =>
    st.bands.map (fun bs => bs.map (fun p => p.1)))

/-- The validated form of the builtin metrics mapping. -/
def validated_builtin : List (String × Option (Masked → Scalar)) :=
  [("min", some ma_min), ("max", some ma_max), ("mean", some ma_mean),
   ("std", some ma_std), ("sum", some ma_sum)]

/-- The per-feature record the specification predicts for a feature whose
reprojected geometry intersects the raster bounds and whose window
resolves to `w`: not outside, the optional bbox-containment flag, and per
requested band the metrics of the window subset masked by nodata OR
not-covered. -/
def intersect_entry (vd : List (String × Option (Masked → Scalar)))
    (bandsL : List Nat) (contained : Bool) (all_touched : Option Bool)
    (raster : Raster) (T : Geom → Geom) (f : Feature) (w : Block) :
    FeatureStats :=
  { outside := false
    contained :=
      if contained then
        some (Geom.containsB (raster_bounds_geom raster) (T f.geometry))
      else none
    bands := some (bandsL.map (fun bidx =>
      (bidx, apply_metrics vd
        (masked_subset_of (read_band raster bidx w)
          (rasterize (T f.geometry) (w.1.2 - w.1.1) (w.2.2 - w.2.1)
            (subset_affine_of raster.affine w) all_touched))))) }

/-- The result-mapping invariant of the aggregator: an entry is explained
by a feature of the data source whose id it carries, its `outside` flag is
true exactly when that feature's reprojected geometry does not intersect
the raster bounds polygon, and a not-outside entry carries a `bands`
mapping. -/
def entry_ok (allF : List Feature) (rb : Geom) (T : Geom → Geom)
    (p : String × FeatureStats) : Prop :=
  (∃ f ∈ allF, f.id = p.1 ∧
    (p.2.outside = true ↔ Geom.intersectsB (T f.geometry) rb = false)) ∧
  (p.2.outside = false → p.2.bands ≠ none)

/-- Test fixture: north-up affine with unit pixels and origin `(0, 4)`,
so pixel `(row, col)` covers world square
`[col, col+1] x [3-row, 4-row]`. -/
def sample_affine : Affine := ⟨1, 0, 0, 0, -1, 4⟩

/-- Test fixture: an injective table of rational pixel values. -/
def sample_vals : Nat → Nat → ℚ := fun r c => 10 * r + c + 1/7

/-- Test fixture: single-band 4x4 raster with one block covering the full
grid, no nodata, and `sample_vals` as pixel values. -/
def sample_raster : Raster :=
  { count := 1
    affine := sample_affine
    bounds := ⟨0, 0, 4, 4⟩
    blocks := [((0, 4), (0, 4))]
    readPix := fun _ r c => sample_vals r c
    nodataAt := fun _ _ _ => false }

/-- Test fixture: three-band 4x4 raster with one block, no nodata. -/
def rgb_raster : Raster :=
  { count := 3
    affine := sample_affine
    bounds := ⟨0, 0, 4, 4⟩
    blocks := [((0, 4), (0, 4))]
    readPix := fun b r c => (100 * b + 10 * r + c : ℚ)
    nodataAt := fun _ _ _ => false }

/-- Test fixture: a raster whose declared bounds are nonempty but whose
block list is empty, so the spatial index is empty while bbox
intersection tests still succeed. -/
def noblocks_raster : Raster :=
  { count := 1
    affine := sample_affine
    bounds := ⟨0, 0, 4, 4⟩
    blocks := []
    readPix := fun _ _ _ => 0
    nodataAt := fun _ _ _ => false }

/-- Test fixture: the world rectangle exactly covering pixel cell
`(row r, col c)` of `sample_affine`. -/
def cell_geom (r c : Nat) : Geom :=
  ⟨(c : ℚ), 3 - (r : ℚ), (c : ℚ) + 1, 4 - (r : ℚ)⟩

/-- Test fixture: a vector data source holding one feature, with the
identity CRS reprojection (vector CRS equal to raster CRS). -/
def single_feature_vector (f : Feature) : VectorDS :=
  ⟨fun gm => gm, [f]⟩

/-- Test fixture: a feature inside the sample raster (cell `(1, 2)`). -/
def inside_feature : Feature := ⟨"0", cell_geom 1 2⟩

/-- Test fixture: a feature wholly outside the sample raster bounds. -/
def outside_feature : Feature := ⟨"7", ⟨10, 10, 11, 11⟩⟩

end ZonalStats

namespace ZonalStats

lemma process_feature_outside (vd : List (String × Option (Masked → Scalar)))
    (bandsL : List Nat) (contained : Bool) (at? : Option Bool)
    (raster : Raster) (rb : Geom) (T : Geom → Geom) (f : Feature)
    (hI : Geom.intersectsB (T f.geometry) rb = false) :
    process_feature vd bandsL contained at? raster rb T f =
      (.ok ⟨true, none, none⟩, 0) := by
  simp [process_feature, hI]

lemma process_feature_no_windows (vd : List (String × Option (Masked → Scalar)))
    (bandsL : List Nat) (contained : Bool) (at? : Option Bool)
    (raster : Raster) (rb : Geom) (T : Geom → Geom) (f : Feature)
    (hI : Geom.intersectsB (T f.geometry) rb = true)
    (hq : intersecting_block_windows raster (T f.geometry).bounds = []) :
    process_feature vd bandsL contained at? raster rb T f =
      (.error "IndexError: too many indices for array", 0) := by
  simp [process_feature, hI, hq, np_window_union]

lemma process_feature_intersect (vd : List (String × Option (Masked → Scalar)))
    (b0 : Nat) (bs : List Nat) (contained : Bool) (at? : Option Bool)
    (raster : Raster) (rb : Geom) (T : Geom → Geom) (f : Feature)
    (r0 r1 c0 c1 : Nat)
    (hI : Geom.intersectsB (T f.geometry) rb = true)
    (hw : np_window_union
        (intersecting_block_windows raster (T f.geometry).bounds) =
      some ((r0, r1), (c0, c1))) :
    process_feature vd (b0 :: bs) contained at? raster rb T f =
      (.ok { outside := false
             contained :=
               if contained then
                 some (Geom.containsB rb (T f.geometry))
               else none
             bands := some ((b0 :: bs).map (fun bidx =>
               (bidx, apply_metrics vd
                 (masked_subset_of (read_band raster bidx ((r0, r1), (c0, c1)))
                   (rasterize (T f.geometry) (r1 - r0) (c1 - c0)
                     (subset_affine_of raster.affine ((r0, r1), (c0, c1)))
                     at?))))) }, 1) := by
  simp [process_feature, hI, hw, raster_read, read_band]

lemma zonal_stats_run_single (T : Geom → Geom) (f : Feature)
    (raster : Raster) (bands : BandsArg) (contained : Bool)
    (at? : Option Bool) (custom : Option (List (String × MetricVal)))
    (vd : List (String × Option (Masked → Scalar)))
    (hv : validate_metrics (merged_metrics custom) = .ok vd) :
    zonal_stats_run ⟨T, [f]⟩ raster bands contained at? custom =
      (match process_feature vd (normalize_bands bands raster.count)
          contained at? raster (raster_bounds_geom raster) T f with
       | (.error e, n) => (.error e, n)
       | (.ok st, n) => (.ok [(f.id, st)], n)) := by
  simp only [zonal_stats_run, hv]
  cases h : process_feature vd (normalize_bands bands raster.count)
      contained at? raster (raster_bounds_geom raster) T f with
  | mk res n =>
    cases res with
    | error e => simp [run_features, h]
    | ok st => simp [run_features, h, dict_set]



lemma mem_dict_set {α : Type} (d : List (String × α)) (k : String) (v : α)
    (p : String × α) (hp : p ∈ dict_set d k v) : p ∈ d ∨ p = (k, v) := by
  unfold dict_set at hp
  split at hp
  · rcases List.mem_map.mp hp with ⟨q, hq, hpq⟩
    by_cases h : q.1 = k
    · right
      simp [h] at hpq
      subst hpq
      simp [h]
    · left
      simp [h] at hpq
      subst hpq
      exact hq
  · rcases List.mem_append.mp hp with h | h
    · exact Or.inl h
    · exact Or.inr (List.mem_singleton.mp h)

lemma process_feature_ok_shape (vd : List (String × Option (Masked → Scalar)))
    (bandsL : List Nat) (contained : Bool) (at? : Option Bool)
    (raster : Raster) (rb : Geom) (T : Geom → Geom) (f : Feature)
    (st : FeatureStats) (n : Nat)
    (h : process_feature vd bandsL contained at? raster rb T f = (.ok st, n)) :
    st.outside = !(Geom.intersectsB (T f.geometry) rb) ∧
    (st.outside = false → st.bands ≠ none) := by
  by_cases hI : Geom.intersectsB (T f.geometry) rb
  · simp only [process_feature, hI, Bool.not_true, Bool.false_eq_true,
      if_false] at h
    rcases hw : np_window_union
        (intersecting_block_windows raster (T f.geometry).bounds) with _ | w
    · rw [hw] at h
      simp at h
    · rw [hw] at h
      cases bandsL with
      | nil => simp [raster_read] at h
      | cons b0 bs =>
        simp [raster_read] at h
        rcases h with ⟨h1, _⟩
        rw [← h1]
        simp [hI]
  · simp at hI
    rw [process_feature_outside vd bandsL contained at? raster rb T f hI] at h
    simp at h
    rcases h with ⟨h1, _⟩
    rw [← h1]
    simp [hI]

lemma run_features_entry_ok (vd : List (String × Option (Masked → Scalar)))
    (bandsL : List Nat) (contained : Bool) (at? : Option Bool)
    (raster : Raster) (rb : Geom) (T : Geom → Geom) (allF : List Feature) :
    ∀ (fs : List Feature) (acc : List (String × FeatureStats)) (reads : Nat)
      (res : List (String × FeatureStats)) (n : Nat),
      (∀ p ∈ acc, entry_ok allF rb T p) → (∀ f ∈ fs, f ∈ allF) →
      run_features vd bandsL contained at? raster rb T fs acc reads =
        (.ok res, n) →
      ∀ p ∈ res, entry_ok allF rb T p := by
  intro fs
  induction fs with
  | nil =>
    intro acc reads res n hacc _ hrun
    simp [run_features] at hrun
    rcases hrun with ⟨h1, _⟩
    rw [← h1]
    exact hacc
  | cons f rest ih =>
    intro acc reads res n hacc hfs hrun
    rw [run_features] at hrun
    rcases hpf : process_feature vd bandsL contained at? raster rb T f
      with ⟨pres, pn⟩
    rw [hpf] at hrun
    cases pres with
    | error e => simp at hrun
    | ok st =>
      refine ih (dict_set acc f.id st) (reads + pn) res n ?_ ?_ hrun
      · intro p hp
        rcases mem_dict_set acc f.id st p hp with h | h
        · exact hacc p h
        · subst h
          constructor
          · refine ⟨f, hfs f (List.mem_cons_self f rest), rfl, ?_⟩
            rcases process_feature_ok_shape vd bandsL contained at? raster
              rb T f st pn hpf with ⟨ho, _⟩
            cases hIb : Geom.intersectsB (T f.geometry) rb <;>
              simp [hIb] at ho <;> simp [ho]
          · rcases process_feature_ok_shape vd bandsL contained at? raster
              rb T f st pn hpf with ⟨_, hb⟩
            exact hb
      · intro g hg
        exact hfs g (List.mem_cons_of_mem f hg)

lemma validate_error_of_mem (name : String) :
    ∀ l : List (String × MetricVal),
      (name, MetricVal.notCallable) ∈ l →
      ∃ e, validate_metrics l = .error e := by
  intro l
  induction l with
  | nil => intro h; simp at h
  | cons p rest ih =>
    intro h
    rcases p with ⟨nm, v⟩
    rcases List.mem_cons.mp h with h1 | h1
    · rw [show nm = name from (Prod.mk.injEq _ _ _ _ ▸ h1.symm).1,
         show v = MetricVal.notCallable from (Prod.mk.injEq _ _ _ _ ▸ h1.symm).2]
      exact ⟨_, rfl⟩
    · rcases ih h1 with ⟨e, he⟩
      cases v with
      | pynone => exact ⟨e, by simp [validate_metrics, he, Except.map]⟩
      | func g => exact ⟨e, by simp [validate_metrics, he, Except.map]⟩
      | notCallable => exact ⟨_, rfl⟩



/-- C9: running the aggregator twice over the same immutable raster and
vector inputs with the same options produces identical outputs: the
embedded pipeline is a pure function of its inputs. -/
theorem claim_c9_deterministic (vector : VectorDS) (raster : Raster)
    (bands : BandsArg) (contained : Bool) (at? : Option Bool)
    (custom : Option (List (String × MetricVal))) :
    zonal_stats_from_raster vector raster bands contained at? custom =
      zonal_stats_from_raster vector raster bands contained at? custom :=
  rfl

/-- C2: a feature whose reprojected geometry does not intersect the raster
bounds gets exactly the record with `outside` true and no `bands` and no
`contained` keys, and the run performs zero raster reads for it. -/
theorem claim_c2_outside_short_circuit (T : Geom → Geom) (f : Feature)
    (raster : Raster) (bands : BandsArg) (contained : Bool)
    (at? : Option Bool) (custom : Option (List (String × MetricVal)))
    (vd : List (String × Option (Masked → Scalar)))
    (hv : validate_metrics (merged_metrics custom) = .ok vd)
    (hI : Geom.intersectsB (T f.geometry) (raster_bounds_geom raster) = false) :
    zonal_stats_run ⟨T, [f]⟩ raster bands contained at? custom =
      (.ok [(f.id, ⟨true, none, none⟩)], 0) := by
  rw [zonal_stats_run_single T f raster bands contained at? custom vd hv,
    process_feature_outside vd (normalize_bands bands raster.count) contained
      at? raster (raster_bounds_geom raster) T f hI]

unseal Rat.mul Rat.add Rat.inv Rat.sub in
/-- Witness for C2 at a concrete outside feature. -/
theorem claim_c2_witness :
    validate_metrics (merged_metrics none) = .ok validated_builtin ∧
    Geom.intersectsB ((fun gm => gm) outside_feature.geometry)
      (raster_bounds_geom sample_raster) = false ∧
    zonal_stats_run (single_feature_vector outside_feature) sample_raster
      .noneArg true none none = (.ok [("7", ⟨true, none, none⟩)], 0) :=
  ⟨rfl, by decide,
    claim_c2_outside_short_circuit (fun gm => gm) outside_feature
      sample_raster .noneArg true none none validated_builtin rfl (by decide)⟩

/-- C4 (amended): when a feature's bbox intersects the raster bounds but
the spatial-index query returns zero block windows, the run aborts with an
IndexError rather than recording the feature; no reads occur. -/
theorem claim_c4_empty_query_fatal (T : Geom → Geom) (f : Feature)
    (raster : Raster) (bands : BandsArg) (contained : Bool)
    (at? : Option Bool) (custom : Option (List (String × MetricVal)))
    (vd : List (String × Option (Masked → Scalar)))
    (hv : validate_metrics (merged_metrics custom) = .ok vd)
    (hI : Geom.intersectsB (T f.geometry) (raster_bounds_geom raster) = true)
    (hq : intersecting_block_windows raster (T f.geometry).bounds = []) :
    zonal_stats_run ⟨T, [f]⟩ raster bands contained at? custom =
      (.error "IndexError: too many indices for array", 0) := by
  rw [zonal_stats_run_single T f raster bands contained at? custom vd hv,
    process_feature_no_windows vd (normalize_bands bands raster.count)
      contained at? raster (raster_bounds_geom raster) T f hI hq]

unseal Rat.mul Rat.add Rat.inv Rat.sub in
/-- Counterexample to C4 as stated: at a raster with an empty block index
and a geometry intersecting its bounds, the run raises rather than
producing an `outside` record. -/
theorem claim_c4_counterexample :
    Geom.intersectsB (cell_geom 1 2) (raster_bounds_geom noblocks_raster) = true ∧
    intersecting_block_windows noblocks_raster (Geom.bounds (cell_geom 1 2)) = [] ∧
    zonal_stats_from_raster (single_feature_vector ⟨"0", cell_geom 1 2⟩)
      noblocks_raster .noneArg true none none =
      .error "IndexError: too many indices for array" :=
  ⟨by decide, rfl, rfl⟩

unseal Rat.mul Rat.add Rat.inv Rat.sub in
/-- Witness for the amended C4 at a concrete raster and feature. -/
theorem claim_c4_witness :
    zonal_stats_run (single_feature_vector ⟨"0", cell_geom 1 2⟩)
      noblocks_raster .noneArg true none none =
      (.error "IndexError: too many indices for array", 0) :=
  claim_c4_empty_query_fatal (fun gm => gm) ⟨"0", cell_geom 1 2⟩
    noblocks_raster .noneArg true none none validated_builtin rfl
    (by decide) rfl

/-- C7: evaluation of the embedded `all_touched` defaulting of
`zonal_statistics.py` lines 130-131 at the failing input: an explicitly
supplied `all_touched=False` is overridden to `True` for a LineString
dataset because of python operator precedence, contradicting the
specified caller-wins behaviour. -/
theorem claim_c7_line_overrides_caller :
    all_touched_with_default (some false) GeomType.lineString = some true ∧
    ¬ all_touched_with_default (some false) GeomType.lineString = some false := by
  decide

/-- C8: a metrics mapping containing a non-callable, non-None value makes
the run fail with a configuration error before any feature is processed
and before any raster read occurs. -/
theorem claim_c8_fail_fast (vector : VectorDS) (raster : Raster)
    (bands : BandsArg) (contained : Bool) (at? : Option Bool)
    (custom : List (String × MetricVal)) (name : String)
    (hmem : (name, MetricVal.notCallable) ∈ merged_metrics (some custom)) :
    ∃ e, zonal_stats_run vector raster bands contained at? (some custom) =
      (.error e, 0) := by
  rcases validate_error_of_mem name (merged_metrics (some custom)) hmem
    with ⟨e, he⟩
  exact ⟨e, by simp [zonal_stats_run, he]⟩

/-- Witness for C8 with a concrete non-callable custom metric. -/
theorem claim_c8_witness :
    (("bad", MetricVal.notCallable) ∈
      merged_metrics (some [("bad", MetricVal.notCallable)])) ∧
    ∃ e, zonal_stats_run (single_feature_vector inside_feature) sample_raster
      .noneArg true none (some [("bad", MetricVal.notCallable)]) =
      (.error e, 0) :=
  ⟨by simp [merged_metrics, dict_update, dict_set, builtin_metrics],
    claim_c8_fail_fast (single_feature_vector inside_feature) sample_raster
      .noneArg true none [("bad", MetricVal.notCallable)] "bad"
      (by simp [merged_metrics, dict_update, dict_set, builtin_metrics])⟩



unseal Rat.mul Rat.add Rat.inv Rat.sub in
/-- C5 (code bug): with `custom={'min': None}` the band output omits the
`min` key entirely (while still computing the other metrics), although
the function's own docstring and the specification state the key must
remain with a null value. -/
theorem claim_c5_disabled_key_omitted :
    metric_value (zonal_stats_from_raster (single_feature_vector inside_feature)
      sample_raster .noneArg true none (some [("min", MetricVal.pynone)]))
      "0" 1 "min" = none ∧
    metric_value (zonal_stats_from_raster (single_feature_vector inside_feature)
      sample_raster .noneArg true none (some [("min", MetricVal.pynone)]))
      "0" 1 "sum" = some (.rat (sample_vals 1 2)) := by
  constructor
  · decide
  · decide

unseal Rat.mul Rat.add Rat.inv Rat.sub in
/-- Counterexample to C6 as stated: requesting bands `[3, 1]` stores the
per-feature band results in ascending order `[1, 3]`, not in the caller's
requested order. -/
theorem claim_c6_counterexample :
    band_keys (zonal_stats_from_raster (single_feature_vector inside_feature)
      rgb_raster (.listArg [3, 1]) true none none) "0" = some [1, 3] ∧
    band_keys (zonal_stats_from_raster (single_feature_vector inside_feature)
      rgb_raster (.listArg [3, 1]) true none none) "0" ≠ some [3, 1] := by
  constructor
  · decide
  · decide

/-- C6 (amended): when the caller requests a list of bands, the per-feature
band results are stored in the ascending sorted order of that list. -/
theorem claim_c6_sorted_order (T : Geom → Geom) (f : Feature)
    (raster : Raster) (contained : Bool) (at? : Option Bool)
    (custom : Option (List (String × MetricVal)))
    (vd : List (String × Option (Masked → Scalar)))
    (l : List Nat) (b0 r0 r1 c0 c1 : Nat) (bs : List Nat)
    (hv : validate_metrics (merged_metrics custom) = .ok vd)
    (hI : Geom.intersectsB (T f.geometry) (raster_bounds_geom raster) = true)
    (hw : np_window_union
        (intersecting_block_windows raster (T f.geometry).bounds) =
      some ((r0, r1), (c0, c1)))
    (hs : py_sorted l = b0 :: bs) :
    band_keys (zonal_stats_from_raster ⟨T, [f]⟩ raster (.listArg l)
      contained at? custom) f.id = some (py_sorted l) := by
  unfold zonal_stats_from_raster
  rw [zonal_stats_run_single T f raster (.listArg l) contained at? custom vd hv]
  have hb : normalize_bands (BandsArg.listArg l) raster.count = b0 :: bs := by
    simp [normalize_bands, hs]
  rw [hb, process_feature_intersect vd b0 bs contained at? raster
    (raster_bounds_geom raster) T f r0 r1 c0 c1 hI hw]
  simp [band_keys, lookup_stats, List.find?, List.map_map, Function.comp_def, hs]

unseal Rat.mul Rat.add Rat.inv Rat.sub in
/-- Witness for the amended C6 at a concrete request `[3, 1]`. -/
theorem claim_c6_witness :
    band_keys (zonal_stats_from_raster (single_feature_vector inside_feature)
      rgb_raster (.listArg [3, 1]) true none none) "0" =
      some (py_sorted [3, 1]) :=
  claim_c6_sorted_order (fun gm => gm) inside_feature rgb_raster true none
    none validated_builtin [3, 1] 1 0 4 0 4 [3] rfl (by decide) (by decide) rfl



/-- C1: for a feature whose reprojected geometry intersects the raster
bounds, the aggregator output is exactly the record that applies the
metric functions to, for each requested band, the window subset masked by
`nodata OR not-covered`; and a cell of that masked array is unmasked
precisely when it is not nodata and is covered by the rasterized
geometry. -/
theorem claim_c1_mask_composition (T : Geom → Geom) (f : Feature)
    (raster : Raster) (bands : BandsArg) (contained : Bool)
    (at? : Option Bool) (custom : Option (List (String × MetricVal)))
    (vd : List (String × Option (Masked → Scalar)))
    (r0 r1 c0 c1 b0 : Nat) (bs : List Nat)
    (hv : validate_metrics (merged_metrics custom) = .ok vd)
    (hI : Geom.intersectsB (T f.geometry) (raster_bounds_geom raster) = true)
    (hw : np_window_union
        (intersecting_block_windows raster (T f.geometry).bounds) =
      some ((r0, r1), (c0, c1)))
    (hb : normalize_bands bands raster.count = b0 :: bs) :
    zonal_stats_from_raster ⟨T, [f]⟩ raster bands contained at? custom =
      .ok [(f.id, intersect_entry vd (b0 :: bs) contained at? raster T f
        ((r0, r1), (c0, c1)))] ∧
    ∀ (rz : Nat → Nat → Bool) (bidx i j : Nat),
      ((masked_subset_of (read_band raster bidx ((r0, r1), (c0, c1))) rz).mask
          i j = false ↔
        (raster.nodataAt bidx (r0 + i) (c0 + j) = false ∧ rz i j = true)) := by
  constructor
  · unfold zonal_stats_from_raster
    rw [zonal_stats_run_single T f raster bands contained at? custom vd hv,
      hb, process_feature_intersect vd b0 bs contained at? raster
        (raster_bounds_geom raster) T f r0 r1 c0 c1 hI hw]
    simp [intersect_entry]
  · intro rz bidx i j
    cases h1 : raster.nodataAt bidx (r0 + i) (c0 + j) <;>
      cases h2 : rz i j <;>
      simp [masked_subset_of, read_band, h1, h2]

unseal Rat.mul Rat.add Rat.inv Rat.sub in
/-- Witness for C1 at a concrete raster and intersecting feature. -/
theorem claim_c1_witness :
    (zonal_stats_from_raster (single_feature_vector inside_feature)
      sample_raster .noneArg true none none =
      .ok [("0", intersect_entry validated_builtin [1] true none
        sample_raster (fun gm => gm) inside_feature ((0, 4), (0, 4)))]) ∧
    ((masked_subset_of (read_band sample_raster 1 ((0, 4), (0, 4)))
        (fun _ _ => true)).mask 0 0 = false ↔
      (sample_raster.nodataAt 1 (0 + 0) (0 + 0) = false ∧
        (fun (_ _ : Nat) => true) 0 0 = true)) :=
  ⟨(claim_c1_mask_composition (fun gm => gm) inside_feature sample_raster
      .noneArg true none none validated_builtin 0 4 0 4 1 [] rfl (by decide)
      (by decide) rfl).1,
   (claim_c1_mask_composition (fun gm => gm) inside_feature sample_raster
      .noneArg true none none validated_builtin 0 4 0 4 1 [] rfl (by decide)
      (by decide) rfl).2 (fun _ _ => true) 1 0 0⟩

unseal Rat.mul Rat.add Rat.inv Rat.sub in
/-- C3: over the sample 4x4 raster with injective pixel values, zonal
statistics for the polygon exactly covering pixel cell `(r, c)` report a
`sum` equal to that single pixel's raw value, for every cell of the
grid. -/
theorem claim_c3_unit_cell_sum (r c : Nat) (hr : r ≤ 3) (hc : c ≤ 3) :
    metric_value (zonal_stats_from_raster
      (single_feature_vector ⟨"0", cell_geom r c⟩) sample_raster
      (.intArg 1) true none none) "0" 1 "sum" =
      some (.rat (sample_vals r c)) := by
  interval_cases r <;> interval_cases c <;> decide

unseal Rat.mul Rat.add Rat.inv Rat.sub in
/-- Witness for C3 at cell `(2, 1)`. -/
theorem claim_c3_witness :
    metric_value (zonal_stats_from_raster
      (single_feature_vector ⟨"0", cell_geom 2 1⟩) sample_raster
      (.intArg 1) true none none) "0" 1 "sum" =
      some (.rat (sample_vals 2 1)) :=
  claim_c3_unit_cell_sum 2 1 (by decide) (by decide)

/-- C10: every entry of a successful result mapping carries a boolean
`outside` flag that is true exactly when the corresponding feature's
reprojected geometry does not intersect the raster bounds polygon, and
every not-outside entry carries a `bands` mapping. -/
theorem claim_c10_result_invariant (vector : VectorDS) (raster : Raster)
    (bands : BandsArg) (contained : Bool) (at? : Option Bool)
    (custom : Option (List (String × MetricVal)))
    (res : List (String × FeatureStats))
    (h : zonal_stats_from_raster vector raster bands contained at? custom =
      .ok res) :
    ∀ p ∈ res, entry_ok vector.features (raster_bounds_geom raster)
      vector.crsTransform p := by
  unfold zonal_stats_from_raster zonal_stats_run at h
  rcases hv : validate_metrics (merged_metrics custom) with e | vd
  · rw [hv] at h
    simp at h
  · rw [hv] at h
    dsimp only [] at h
    rcases hrun : run_features vd (normalize_bands bands raster.count)
        contained at? raster (raster_bounds_geom raster) vector.crsTransform
        vector.features [] 0 with ⟨a, n⟩
    rw [hrun] at h
    simp at h
    intro p hp
    refine run_features_entry_ok vd (normalize_bands bands raster.count)
      contained at? raster (raster_bounds_geom raster) vector.crsTransform
      vector.features vector.features [] 0 res n ?_ (fun g hg => hg) ?_ p hp
    · intro q hq
      simp at hq
    · rw [hrun, h]

unseal Rat.mul Rat.add Rat.inv Rat.sub in
/-- Witness for C10 at a concrete run with one outside feature. -/
theorem claim_c10_witness :
    entry_ok (single_feature_vector outside_feature).features
      (raster_bounds_geom sample_raster)
      (single_feature_vector outside_feature).crsTransform
      (("7" : String), (⟨true, none, none⟩ : FeatureStats)) :=
  claim_c10_result_invariant (single_feature_vector outside_feature)
    sample_raster .noneArg true none none
    [(("7" : String), (⟨true, none, none⟩ : FeatureStats))] (by rfl)
    (("7" : String), (⟨true, none, none⟩ : FeatureStats))
    (List.mem_singleton.mpr rfl)


end ZonalStats
